import Mathlib

/-!
# Container inspection tools: `inspect.go` and `containerd.go`

A shallow embedding of the two containerd front ends of the repository.

* `inspect.go` walks every runtime namespace, builds one `FullInspectInfo`
  per container and prints it as a JSON document.
* `containerd.go` walks the same namespaces and prints a human readable
  report per container (`printContainerDetails`).

The containerd daemon, the image/task stores and `encoding/json` are external
collaborators.  Every remote call is represented by the value it returns, in the
shape the Go code consumes it:

* a call whose value is read only when `err == nil` is an `Except String _`;
* a call whose value is read although the error is discarded or never looked at
  (`container.Info` in `inspect.go`, `NamespaceService().List` and
  `json.Unmarshal` in both programs) is a Go pair: the value together with an
  optional error.

Go slices are lists (the programs only range over them), Go maps that reach the
JSON document keep their `nil` state as `none`.
-/

namespace Containers

/-! ## Data of the external libraries -/

/-- A byte buffer, as returned by `info.Spec.GetValue()`. -/
abbrev Bytes := List Nat

/-- A Go `map[string]string`; `none` is the `nil` map. -/
abbrev StrMap := Option (List (String × String))

/-- A `time.Time`, kept through the two renderings the programs ask for:
`text` is `String()` (inspect.go), `rfc3339` is `Format(time.RFC3339)`
(containerd.go). -/
structure Time where
  text : String
  rfc3339 : String
deriving DecidableEq, Repr

/-- Modelled from the spec: type `specs.User` of runtime-spec, declared outside
the repository; the user UID/GID of §3, read as `spec.Process.User.UID` and
`spec.Process.User.GID`. -/
structure User where
  UID : Nat
  GID : Nat
deriving DecidableEq, Repr

/-- Modelled from the spec: type `specs.Process` of runtime-spec, declared
outside the repository; working directory, user and environment variable list
of §3, read as `spec.Process.Cwd`, `.User` and `.Env`. -/
structure Process where
  Cwd : String
  User : User
  Env : List String
deriving DecidableEq, Repr

/-- Modelled from the spec: type `specs.Mount` of runtime-spec, declared outside
the repository; the {type, source, destination} of §3 (`Typ` is the Go field
`Type`). -/
structure Mount where
  Typ : String
  Source : String
  Destination : String
deriving DecidableEq, Repr

/-- Modelled from the spec: an entry of the namespace list of the Linux block,
type `specs.LinuxNamespace` of runtime-spec (`Typ` is the Go field `Type`). -/
structure LinuxNamespace where
  Typ : String
  Path : String
deriving DecidableEq, Repr

/-- Modelled from the spec: the resource limits of the Linux block, type
`specs.LinuxResources` of runtime-spec; never opened by the repository, kept as
an uninterpreted payload. -/
structure LinuxResources where
  payload : String
deriving DecidableEq, Repr

/-- Modelled from the spec: an entry of the device list of the Linux block, type
`specs.LinuxDevice` of runtime-spec; never opened by the repository. -/
structure LinuxDevice where
  payload : String
deriving DecidableEq, Repr

/-- Modelled from the spec: the seccomp profile of the Linux block, type
`specs.LinuxSeccomp` of runtime-spec; never opened by the repository. -/
structure LinuxSeccomp where
  payload : String
deriving DecidableEq, Repr

/-- Modelled from the spec: the Linux-specific block of §3, type `specs.Linux` of
runtime-spec, declared outside the repository; the fields are those read by
`getCgroupPath` and `getNetworkSpec`.  `Resources` and `Seccomp` are pointers,
`none` is nil. -/
structure Linux where
  CgroupsPath : String
  Namespaces : List LinuxNamespace
  Resources : Option LinuxResources
  Sysctl : StrMap
  Devices : List LinuxDevice
  Seccomp : Option LinuxSeccomp
  RootfsPropagation : String
deriving DecidableEq, Repr

/-- Modelled from the spec: the OCI Runtime Spec of §3, type `specs.Spec` of
runtime-spec, declared outside the repository; the fields are those the
repository reads.  `Process` and `Linux` are pointers in specs-go (`*Process`,
`*Linux`) and `none` is nil: inspect.go tests `spec.Linux != nil`, containerd.go
reads through `spec.Process` without a test. -/
structure Spec where
  Hostname : String
  Process : Option Process
  Mounts : List Mount
  Annotations : StrMap
  Linux : Option Linux
deriving DecidableEq, Repr

/-- The value of `var spec specs.Spec`. -/
def Spec.zero : Spec :=
  { Hostname := "", Process := none, Mounts := [], Annotations := none, Linux := none }

/-- Modelled from the spec: the container metadata of §3 and §6
(`GetContainerInfo`), type `containers.Container` of containerd, declared outside
the repository; the fields are those the repository reads.  `Spec` is the blob
`info.Spec.GetValue()`, `CreatedAt` the creation time. -/
structure ContainerInfo where
  Labels : StrMap
  RuntimeName : String
  RuntimeOptions : String
  Spec : Bytes
  SnapshotKey : String
  Snapshotter : String
  CreatedAt : Time
deriving DecidableEq, Repr

/-- Modelled from the spec: the Image of §3 (name, content digest, byte size),
what the programs read of a `containerd.Image`: `Name()`,
`Target().Digest.String()` and `Target().Size`. -/
structure Image where
  Name : String
  Digest : String
  Size : Int
deriving DecidableEq, Repr

/-- Modelled from the spec: the Task of §3 (PID, textual status), what the
programs read of a `containerd.Task`: `Pid()` (a `uint32`) and the `Status`
field of the value returned by `task.Status(ctx)`, whose error both programs
discard. -/
structure Task where
  Pid : Nat
  Status : String
deriving DecidableEq, Repr

/-- A `containerd.Container` handle together with the answers of its remote
calls.  `Info` is the value returned by `container.Info(ctx)` and `InfoErr` the
error returned with it. -/
structure Container where
  ID : String
  Info : ContainerInfo
  InfoErr : Option String
  Image : Except String Image
  Task : Except String Task

/-- A connected `containerd.Client`: `Namespaces` is the pair returned by
`client.NamespaceService().List`, `Containers` the answer of
`client.Containers` under the context of a namespace. -/
structure Client where
  Namespaces : List String × Option String
  Containers : String → Except String (List Container)

/-- The call `json.Unmarshal(blob, &spec)` on a freshly declared `spec` (package
`encoding/json`, outside the repository), taken as a parameter in the shape of
the Go call: the target as the call left it, and the error it returned.  A
syntax error leaves the target untouched; after a type error `Unmarshal` skips
the offending member, goes on filling the others and returns the error. -/
abbrev Decoder := Bytes → Spec × Option String

/-! ## inspect.go -/

/-- Type `RuntimeInfo`; `Options` is never assigned and stays `nil`. -/
structure RuntimeInfo where
  Name : String
deriving DecidableEq, Repr

/-- Type `ImageInfo`. -/
structure ImageInfo where
  Name : String
  Digest : String
  Size : Int
deriving DecidableEq, Repr

/-- Type `StatusInfo`. -/
structure StatusInfo where
  Status : String
  Pid : Int
deriving DecidableEq, Repr

/-- Type `TaskInfo`; `IO`, `Checkpoint` and `Options` are never assigned. -/
structure TaskInfo where
  Pid : Int
  Status : String
deriving DecidableEq, Repr

/-- The `interface{}` values `getNetworkSpec` stores in its map. -/
inductive NetValue where
  | namespaces (v : List LinuxNamespace)
  | resources (v : Option LinuxResources)
  | sysctl (v : StrMap)
  | devices (v : List LinuxDevice)
  | seccomp (v : Option LinuxSeccomp)
  | rootfsPropagation (v : String)
deriving DecidableEq, Repr

/-- Type `FullInspectInfo`.  `Extensions` and `Checkpoint` are never assigned
and stay `nil`.  `NetworkSpec` is an `interface{}`: `none` is `nil`, `some m` a
`map[string]interface{}` with the entries `m`. -/
structure FullInspectInfo where
  ContainerID : String
  Namespace : String
  Runtime : RuntimeInfo
  Image : ImageInfo
  Status : StatusInfo
  Spec : Spec
  Labels : StrMap
  Annotations : StrMap
  CreatedAt : String
  Snapshotter : String
  SnapshotKey : String
  Task : TaskInfo
  NetworkSpec : Option (List (String × NetValue))
  CgroupPath : String
deriving DecidableEq, Repr

/-- Function `getCgroupPath` of inspect.go. -/
def getCgroupPath (spec : Spec) : String :=
  match spec.Linux with
  | some linux => linux.CgroupsPath
  | none => ""

/-- Function `getNetworkSpec` of inspect.go. -/
def getNetworkSpec (spec : Spec) : Option (List (String × NetValue)) :=
  match spec.Linux with
  | some linux =>
    some [("namespaces", .namespaces linux.Namespaces),
          ("resources", .resources linux.Resources),
          ("sysctl", .sysctl linux.Sysctl),
          ("devices", .devices linux.Devices),
          ("seccomp", .seccomp linux.Seccomp),
          ("rootfsPropagation", .rootfsPropagation linux.RootfsPropagation)]
  | none => none

/-- The statements `var spec specs.Spec; json.Unmarshal(blob, &spec)`: the value
of `spec` afterwards.  Neither program replaces it after an error. -/
def unmarshalSpec (decode : Decoder) (blob : Bytes) : Spec :=
  (decode blob).1

/-- The conversion `int(task.Pid())` of a `uint32` on a platform whose `int` has
64 bits. -/
def intOfPid (pid : Nat) : Int := Int.ofNat pid

/-- The body of the container loop of inspect.go `main` (lines 77-121): the
record that is marshalled and printed for `container` in namespace `s`. -/
def inspectContainer (decode : Decoder) (s : String) (container : Container) :
    FullInspectInfo :=
  let info := container.Info
  let spec := unmarshalSpec decode info.Spec
  let inspectInfo : FullInspectInfo :=
    { ContainerID := container.ID
      Namespace := s
      Runtime := { Name := info.RuntimeName }
      Image := { Name := "", Digest := "", Size := 0 }
      Status := { Status := "", Pid := 0 }
      Spec := spec
      Labels := info.Labels
      Annotations := spec.Annotations
      CreatedAt := info.CreatedAt.text
      Snapshotter := info.Snapshotter
      SnapshotKey := info.SnapshotKey
      Task := { Pid := 0, Status := "" }
      NetworkSpec := getNetworkSpec spec
      CgroupPath := getCgroupPath spec }
  let inspectInfo : FullInspectInfo :=
    match container.Image with
    | .ok image =>
      { inspectInfo with
        Image := { Name := image.Name, Digest := image.Digest, Size := image.Size } }
    | .error _ => inspectInfo
  match container.Task with
  | .ok task =>
    { inspectInfo with
      Status := { Status := task.Status, Pid := intOfPid task.Pid }
      Task := { Pid := intOfPid task.Pid, Status := task.Status } }
  | .error _ => inspectInfo

/-- A line written through package `log`. -/
inductive LogLine where
  | fatalConnect (err : String)
  | enterNamespace (s : String)
  | fatalContainers (err : String)
deriving DecidableEq, Repr

/-- What a run of inspect.go leaves behind: the records printed on standard
output in order, the log lines, and the exit status of the process. -/
structure Run where
  records : List FullInspectInfo
  logs : List LogLine
  exit : Nat
deriving DecidableEq, Repr

/-- The container loop of inspect.go `main` (lines 76-127): one record per
container, in the order of the listing. -/
def containerLoop (decode : Decoder) (s : String) (containers : List Container) :
    List FullInspectInfo :=
  containers.map (inspectContainer decode s)

/-- The namespace loop of inspect.go `main` (lines 67-129).  `log.Fatalf` ends
the process with status 1 on the spot. -/
def namespaceLoop (decode : Decoder) (client : Client) : List String → Run
  | [] => { records := [], logs := [], exit := 0 }
  | s :: rest =>
    match client.Containers s with
    | .error err =>
      { records := [], logs := [LogLine.enterNamespace s, LogLine.fatalContainers err], exit := 1 }
    | .ok containers =>
      let r := namespaceLoop decode client rest
      { records := containerLoop decode s containers ++ r.records
        logs := LogLine.enterNamespace s :: r.logs
        exit := r.exit }

/-- Function `main` of inspect.go.  `conn` is the result of `containerd.New`.
The error returned by `NamespaceService().List` is stored in `err` and never
read; the loop ranges over the returned list. -/
def main (decode : Decoder) (conn : Except String Client) : Run :=
  match conn with
  | .error err => { records := [], logs := [LogLine.fatalConnect err], exit := 1 }
  | .ok client => namespaceLoop decode client client.Namespaces.1

/-! ## The JSON document of a record -/

/-- A JSON value, the tree that `json.MarshalIndent` renders. -/
inductive JVal where
  | null
  | str (s : String)
  | num (n : Int)
  | arr (items : List JVal)
  | obj (fields : List (String × JVal))

/-- The member `key` of a JSON object, if the value is an object that has it. -/
def JVal.field (v : JVal) (key : String) : Option JVal :=
  match v with
  | .obj fields => fields.lookup key
  | _ => none

/-- The encodings `encoding/json` derives from the declarations of
`specs.Spec` and of the types stored in the `NetworkSpec` map; these
declarations belong to `runtime-spec`. -/
structure Encoders where
  spec : Spec → JVal
  netValue : NetValue → JVal

/-- Encoding of a `map[string]string`: `null` for the nil map, otherwise an
object with the keys in sorted order. -/
def marshalStrMap : StrMap → JVal
  | none => .null
  | some m =>
    .obj ((m.mergeSort fun a b => decide (a.1 ≤ b.1)).map fun kv => (kv.1, JVal.str kv.2))

/-- Encoding of `RuntimeInfo`; `Options` is a nil map. -/
def marshalRuntimeInfo (r : RuntimeInfo) : JVal :=
  .obj [("Name", .str r.Name), ("Options", .null)]

/-- Encoding of `ImageInfo`. -/
def marshalImageInfo (i : ImageInfo) : JVal :=
  .obj [("Name", .str i.Name), ("Digest", .str i.Digest), ("Size", .num i.Size)]

/-- Encoding of `StatusInfo`. -/
def marshalStatusInfo (s : StatusInfo) : JVal :=
  .obj [("Status", .str s.Status), ("Pid", .num s.Pid)]

/-- Encoding of `TaskInfo`; `IO`, `Checkpoint` and `Options` are nil. -/
def marshalTaskInfo (t : TaskInfo) : JVal :=
  .obj [("Pid", .num t.Pid), ("Status", .str t.Status), ("IO", .null),
        ("Checkpoint", .null), ("Options", .null)]

/-- Encoding of the `NetworkSpec` interface value: `null` for nil, otherwise the
map with its keys in sorted order. -/
def marshalNetworkSpec (enc : Encoders) : Option (List (String × NetValue)) → JVal
  | none => .null
  | some m =>
    .obj ((m.mergeSort fun a b => decide (a.1 ≤ b.1)).map fun kv => (kv.1, enc.netValue kv.2))

/-- The document `json.MarshalIndent(inspectInfo, "", "  ")` of inspect.go, as a
tree: the fields of `FullInspectInfo` in declaration order under their json
tags, none of which carries `omitempty`. -/
def marshal (enc : Encoders) (r : FullInspectInfo) : JVal :=
  .obj [("ContainerID", .str r.ContainerID),
        ("Namespace", .str r.Namespace),
        ("Runtime", marshalRuntimeInfo r.Runtime),
        ("Image", marshalImageInfo r.Image),
        ("Status", marshalStatusInfo r.Status),
        ("Spec", enc.spec r.Spec),
        ("Labels", marshalStrMap r.Labels),
        ("Annotations", marshalStrMap r.Annotations),
        ("CreatedAt", .str r.CreatedAt),
        ("Snapshotter", .str r.Snapshotter),
        ("Extensions", .null),
        ("SnapshotKey", .str r.SnapshotKey),
        ("Task", marshalTaskInfo r.Task),
        ("NetworkSpec", marshalNetworkSpec enc r.NetworkSpec),
        ("CgroupPath", .str r.CgroupPath),
        ("Checkpoint", .null)]

/-! ## containerd.go -/

/-- A line printed on standard output by containerd.go, named after what it
reports; the arguments are the values formatted into it.  `listHeader` and
`separator` are printed by `main`, the others by `printContainerDetails`. -/
inductive Line where
  | containerID (id : String)
  | infoError (err : String)
  | specError (err : String)
  | createdAt (t : String)
  | runtime (name : String) (options : String)
  | labels (m : StrMap)
  | imageName (name : String)
  | imageDigest (digest : String)
  | taskStatus (status : String)
  | taskPid (pid : Nat)
  | stopped
  | ociHeader
  | hostname (h : String)
  | cwd (dir : String)
  | user (uid gid : Nat)
  | envHeader
  | env (e : String)
  | mountHeader
  | mount (typ source destination : String)
  | annotationHeader
  | annotation (k v : String)
  | listHeader
  | separator
deriving DecidableEq, Repr

/-- What a call of `printContainerDetails` leaves behind: the lines printed, and
whether the call ended in a run-time panic (a nil pointer dereference) instead
of returning. -/
structure Trace where
  lines : List Line
  panicked : Bool
deriving DecidableEq, Repr

/-- The entries a `range` over a `map[string]string` visits. -/
def StrMap.entries : StrMap → List (String × String)
  | none => []
  | some m => m

/-- Function `printContainerDetails` of containerd.go.  The arguments of a
`Printf` are evaluated before anything is printed, so the dereference
`spec.Process.Cwd` of a nil `spec.Process` panics before the working directory
line is written. -/
def printContainerDetails (decode : Decoder) (container : Container) : Trace :=
  let head := [Line.containerID container.ID]
  match container.InfoErr with
  | some err => { lines := head ++ [Line.infoError err], panicked := false }
  | none =>
    let info := container.Info
    let spec := unmarshalSpec decode info.Spec
    let decodeLines :=
      match (decode info.Spec).2 with
      | some err => [Line.specError err]
      | none => []
    let basic :=
      [Line.createdAt info.CreatedAt.rfc3339,
       Line.runtime info.RuntimeName info.RuntimeOptions,
       Line.labels info.Labels]
    let imageLines :=
      match container.Image with
      | .ok image => [Line.imageName image.Name, Line.imageDigest image.Digest]
      | .error _ => []
    let taskLines :=
      match container.Task with
      | .ok task => [Line.taskStatus task.Status, Line.taskPid task.Pid]
      | .error _ => [Line.stopped]
    let upToHostname :=
      head ++ decodeLines ++ basic ++ imageLines ++ taskLines ++
        [Line.ociHeader, Line.hostname spec.Hostname]
    match spec.Process with
    | none => { lines := upToHostname, panicked := true }
    | some process =>
      { lines :=
          upToHostname ++
            [Line.cwd process.Cwd, Line.user process.User.UID process.User.GID] ++
            [Line.envHeader] ++ process.Env.map Line.env ++
            [Line.mountHeader] ++
            spec.Mounts.map (fun m => Line.mount m.Typ m.Source m.Destination) ++
            [Line.annotationHeader] ++
            spec.Annotations.entries.map (fun kv => Line.annotation kv.1 kv.2)
        panicked := false }

/-- What a run of containerd.go leaves behind: the lines printed on standard
output, the log lines, and the exit status of the process (2 after a run-time
panic). -/
structure PrintRun where
  lines : List Line
  logs : List LogLine
  exit : Nat
deriving DecidableEq, Repr

/-- The container loop of containerd.go `main` (lines 38-41); a panic inside
`printContainerDetails` ends it. -/
def printLoop (decode : Decoder) : List Container → Trace
  | [] => { lines := [], panicked := false }
  | container :: rest =>
    let t := printContainerDetails decode container
    if t.panicked then t
    else
      let r := printLoop decode rest
      { lines := t.lines ++ [Line.separator] ++ r.lines, panicked := r.panicked }

/-- The namespace loop of containerd.go `main` (lines 25-42).  The context of
line 28 is bound to the namespace `s` of the iteration (the comment on line 27
speaks of the default namespace; the code does not use it). -/
def printNamespaceLoop (decode : Decoder) (client : Client) : List String → PrintRun
  | [] => { lines := [], logs := [], exit := 0 }
  | s :: rest =>
    match client.Containers s with
    | .error err =>
      { lines := [], logs := [LogLine.enterNamespace s, LogLine.fatalContainers err],
        exit := 1 }
    | .ok containers =>
      let t := printLoop decode containers
      if t.panicked then
        { lines := Line.listHeader :: t.lines, logs := [LogLine.enterNamespace s], exit := 2 }
      else
        let r := printNamespaceLoop decode client rest
        { lines := Line.listHeader :: t.lines ++ r.lines
          logs := LogLine.enterNamespace s :: r.logs
          exit := r.exit }

/-- Function `main` of containerd.go; as in inspect.go the error returned by
`NamespaceService().List` is never read. -/
def mainPrint (decode : Decoder) (conn : Except String Client) : PrintRun :=
  match conn with
  | .error err => { lines := [], logs := [LogLine.fatalConnect err], exit := 1 }
  | .ok client => printNamespaceLoop decode client client.Namespaces.1

/-! ## Concrete runtimes used as examples -/

/-- The blob `{}`: the JSON of an empty spec. -/
def emptyObjectBlob : Bytes := [123, 125]

/-- A spec of a Linux container. -/
def linuxSpec : Spec :=
  { Hostname := "web"
    Process := some { Cwd := "/", User := { UID := 0, GID := 0 }, Env := ["PATH=/bin"] }
    Mounts := [{ Typ := "proc", Source := "proc", Destination := "/proc" }]
    Annotations := some [("io.kubernetes.cri.container-type", "container")]
    Linux := some
      { CgroupsPath := "/kubepods/pod1/c1"
        Namespaces := [{ Typ := "network", Path := "/proc/8/ns/net" }]
        Resources := none
        Sysctl := none
        Devices := []
        Seccomp := none
        RootfsPropagation := "" } }

/-- The bytes of a blob whose `hostname` member is a number where `specs.Spec`
declares a string:
`{"hostname":1,"annotations":{"a":"b"},"linux":{"cgroupsPath":"/kubepods/x"}}`. -/
def typeErrorBlob : Bytes :=
  [123, 34, 104, 111, 115, 116, 110, 97, 109, 101, 34, 58, 49, 44, 34, 97, 110, 110, 111,
   116, 97, 116, 105, 111, 110, 115, 34, 58, 123, 34, 97, 34, 58, 34, 98, 34, 125, 44,
   34, 108, 105, 110, 117, 120, 34, 58, 123, 34, 99, 103, 114, 111, 117, 112, 115, 80,
   97, 116, 104, 34, 58, 34, 47, 107, 117, 98, 101, 112, 111, 100, 115, 47, 120, 34, 125,
   125]

/-- What `json.Unmarshal` leaves in a zero `specs.Spec` for `typeErrorBlob`: the
hostname is skipped, the annotations and the Linux block are filled in. -/
def typeErrorSpec : Spec :=
  { Hostname := ""
    Process := none
    Mounts := []
    Annotations := some [("a", "b")]
    Linux := some
      { CgroupsPath := "/kubepods/x"
        Namespaces := []
        Resources := none
        Sysctl := none
        Devices := []
        Seccomp := none
        RootfsPropagation := "" } }

/-- The answers of `json.Unmarshal` on the blobs of the examples: `{}` decodes
to the zero spec, the one-byte blob `[1]` stands for the encoding of
`linuxSpec`, `typeErrorBlob` is answered with a type error and the target
`typeErrorSpec`, and every other blob (the empty one included) with a syntax
error and an untouched target. -/
def exampleDecode : Decoder := fun blob =>
  if blob = emptyObjectBlob then (Spec.zero, none)
  else if blob = [1] then (linuxSpec, none)
  else if blob = typeErrorBlob then
    (typeErrorSpec,
      some "json: cannot unmarshal number into Go struct field Spec.hostname of type string")
  else (Spec.zero, some "unexpected end of JSON input")

/-- Metadata of a container created by the `runc` v2 shim, with the blob `b`. -/
def exampleInfo (b : Bytes) : ContainerInfo :=
  { Labels := some [("app", "web")]
    RuntimeName := "io.containerd.runc.v2"
    RuntimeOptions := ""
    Spec := b
    SnapshotKey := "key"
    Snapshotter := "overlayfs"
    CreatedAt := ⟨"2024-05-01 10:00:00 +0000 UTC", "2024-05-01T10:00:00Z"⟩ }

/-- Container `c1` of the scenario: running, task PID 4321 with status
"RUNNING". -/
def c1 : Container :=
  { ID := "c1", Info := exampleInfo [1], InfoErr := none
    Image := .ok { Name := "docker.io/library/nginx:latest", Digest := "sha256:aa", Size := 1862 }
    Task := .ok { Pid := 4321, Status := "RUNNING" } }

/-- Container `c2` of the scenario: stopped, the task lookup fails. -/
def c2 : Container :=
  { ID := "c2", Info := exampleInfo [1], InfoErr := none
    Image := .ok { Name := "docker.io/library/nginx:latest", Digest := "sha256:aa", Size := 1862 }
    Task := .error "no running task found: not found" }

/-- The runtime of the scenario: namespace `default` with `c1` and `c2`. -/
def scenarioClient : Client :=
  { Namespaces := (["default"], none)
    Containers := fun s => if s = "default" then .ok [c1, c2] else .ok [] }

/-- A runtime with the namespaces `ns-a` and `ns-b`, where listing the
containers of `ns-a` fails and `ns-b` holds `c1`. -/
def failingListClient : Client :=
  { Namespaces := (["ns-a", "ns-b"], none)
    Containers := fun s =>
      if s = "ns-a" then .error "rpc error: code = Unavailable"
      else if s = "ns-b" then .ok [c1] else .ok [] }

/-- A runtime with the namespaces `ns-b` and `ns-a`, the failing `ns-a` last. -/
def failingLastClient : Client :=
  { Namespaces := (["ns-b", "ns-a"], none)
    Containers := failingListClient.Containers }

/-- A container whose metadata fetch fails: `container.Info` returns an error,
together with the copy of the metadata the handle was listed with. -/
def noInfoContainer : Container :=
  { ID := "c3", Info := exampleInfo [1], InfoErr := some "container not found"
    Image := .error "image not found", Task := .error "no running task found" }

/-- A runtime whose namespace `default` holds `noInfoContainer` and `c1`. -/
def noInfoClient : Client :=
  { Namespaces := (["default"], none)
    Containers := fun s => if s = "default" then .ok [noInfoContainer, c1] else .ok [] }

/-- A container whose image cannot be resolved. -/
def unresolvedImageContainer : Container :=
  { ID := "c4", Info := exampleInfo [1], InfoErr := none
    Image := .error "image not found", Task := .error "no running task found" }

/-- The same container with an image that resolves with empty name, empty digest
and size 0. -/
def emptyImageContainer : Container :=
  { unresolvedImageContainer with Image := .ok { Name := "", Digest := "", Size := 0 } }

/-- A connected client whose namespace listing fails: `List` returns a nil list
and an error. -/
def noNamespacesClient : Client :=
  { Namespaces := ([], some "rpc error: code = Unavailable desc = transport is closing")
    Containers := fun _ => .ok [c1] }

/-- A container whose metadata fetch succeeds and whose spec blob is empty, hence
undecodable. -/
def undecodableContainer : Container :=
  { ID := "c5", Info := exampleInfo [], InfoErr := none
    Image := .error "image not found", Task := .error "no running task found" }

/-- A container whose metadata fetch succeeds and whose spec blob is
`typeErrorBlob`. -/
def typeErrorContainer : Container :=
  { ID := "c7", Info := exampleInfo typeErrorBlob, InfoErr := none
    Image := .error "image not found", Task := .error "no running task found" }

/-- A container whose spec blob `{}` decodes to a spec with no process block. -/
def noProcessContainer : Container :=
  { ID := "c6", Info := exampleInfo emptyObjectBlob, InfoErr := none
    Image := .error "image not found", Task := .error "no running task found" }

/-- The records of the namespaces `nss` whose container listing succeeds, in
order. -/
def listedRecords (decode : Decoder) (client : Client) (nss : List String) :
    List FullInspectInfo :=
  (nss.map fun p =>
    match client.Containers p with
    | .ok containers => containerLoop decode p containers
    | .error _ => []).flatten

/-! ## Field lemmas for `inspectContainer` -/

theorem inspectContainer_ContainerID (decode : Decoder) (s : String) (c : Container) :
    (inspectContainer decode s c).ContainerID = c.ID := by
  unfold inspectContainer
  split <;> split <;> rfl

theorem inspectContainer_Namespace (decode : Decoder) (s : String) (c : Container) :
    (inspectContainer decode s c).Namespace = s := by
  unfold inspectContainer
  split <;> split <;> rfl

theorem inspectContainer_Runtime (decode : Decoder) (s : String) (c : Container) :
    (inspectContainer decode s c).Runtime = { Name := c.Info.RuntimeName } := by
  unfold inspectContainer
  split <;> split <;> rfl

theorem inspectContainer_CreatedAt (decode : Decoder) (s : String) (c : Container) :
    (inspectContainer decode s c).CreatedAt = c.Info.CreatedAt.text := by
  unfold inspectContainer
  split <;> split <;> rfl

theorem inspectContainer_Spec (decode : Decoder) (s : String) (c : Container) :
    (inspectContainer decode s c).Spec = unmarshalSpec decode c.Info.Spec := by
  unfold inspectContainer
  split <;> split <;> rfl

theorem inspectContainer_Annotations (decode : Decoder) (s : String) (c : Container) :
    (inspectContainer decode s c).Annotations = (unmarshalSpec decode c.Info.Spec).Annotations := by
  unfold inspectContainer
  split <;> split <;> rfl

theorem inspectContainer_CgroupPath (decode : Decoder) (s : String) (c : Container) :
    (inspectContainer decode s c).CgroupPath = getCgroupPath (unmarshalSpec decode c.Info.Spec) := by
  unfold inspectContainer
  split <;> split <;> rfl

theorem inspectContainer_NetworkSpec (decode : Decoder) (s : String) (c : Container) :
    (inspectContainer decode s c).NetworkSpec =
      getNetworkSpec (unmarshalSpec decode c.Info.Spec) := by
  unfold inspectContainer
  split <;> split <;> rfl

theorem inspectContainer_Image_error (decode : Decoder) (s : String) (c : Container)
    (err : String) (h : c.Image = .error err) :
    (inspectContainer decode s c).Image = { Name := "", Digest := "", Size := 0 } := by
  cases hT : c.Task <;> simp [inspectContainer, h, hT]

theorem inspectContainer_Image_ok (decode : Decoder) (s : String) (c : Container)
    (image : Image) (h : c.Image = .ok image) :
    (inspectContainer decode s c).Image =
      { Name := image.Name, Digest := image.Digest, Size := image.Size } := by
  cases hT : c.Task <;> simp [inspectContainer, h, hT]

theorem mem_containerLoop (decode : Decoder) (s : String) (c : Container)
    (cs : List Container) (h : c ∈ cs) :
    inspectContainer decode s c ∈ containerLoop decode s cs :=
  List.mem_map_of_mem _ h

/-! ## Claims -/

/-- C4: `getCgroupPath` returns exactly the `CgroupsPath` of the Linux block when
the block is present and the empty string when it is absent, and the record's
`CgroupPath` is that value for the decoded spec, which is also the record's
`Spec`. -/
theorem getCgroupPath_exact (decode : Decoder) (s : String) (c : Container) (spec : Spec) :
    (∀ linux, spec.Linux = some linux → getCgroupPath spec = linux.CgroupsPath) ∧
    (spec.Linux = none → getCgroupPath spec = "") ∧
    (inspectContainer decode s c).CgroupPath =
      getCgroupPath (unmarshalSpec decode c.Info.Spec) ∧
    (inspectContainer decode s c).CgroupPath =
      getCgroupPath (inspectContainer decode s c).Spec := by
  refine ⟨?_, ?_, ?_, ?_⟩
  · intro linux h
    simp [getCgroupPath, h]
  · intro h
    simp [getCgroupPath, h]
  · exact inspectContainer_CgroupPath decode s c
  · rw [inspectContainer_CgroupPath, inspectContainer_Spec]

/-- C5: `getNetworkSpec` returns nil exactly when the Linux block is absent; for
a present block it returns a map whose keys are exactly namespaces, resources,
sysctl, devices, seccomp and rootfsPropagation, each bound to the corresponding
field of the block, whatever those fields hold; the record's `NetworkSpec` is
that value for the decoded spec. -/
theorem getNetworkSpec_exact (decode : Decoder) (s : String) (c : Container) (spec : Spec) :
    (getNetworkSpec spec = none ↔ spec.Linux = none) ∧
    (∀ linux, spec.Linux = some linux →
      ∃ m, getNetworkSpec spec = some m ∧
        m.map Prod.fst =
          ["namespaces", "resources", "sysctl", "devices", "seccomp", "rootfsPropagation"] ∧
        m.lookup "namespaces" = some (NetValue.namespaces linux.Namespaces) ∧
        m.lookup "resources" = some (NetValue.resources linux.Resources) ∧
        m.lookup "sysctl" = some (NetValue.sysctl linux.Sysctl) ∧
        m.lookup "devices" = some (NetValue.devices linux.Devices) ∧
        m.lookup "seccomp" = some (NetValue.seccomp linux.Seccomp) ∧
        m.lookup "rootfsPropagation" =
          some (NetValue.rootfsPropagation linux.RootfsPropagation)) ∧
    (inspectContainer decode s c).NetworkSpec =
      getNetworkSpec (inspectContainer decode s c).Spec := by
  refine ⟨?_, ?_, ?_⟩
  · unfold getNetworkSpec
    cases spec.Linux <;> simp
  · intro linux h
    refine ⟨[("namespaces", NetValue.namespaces linux.Namespaces),
      ("resources", NetValue.resources linux.Resources),
      ("sysctl", NetValue.sysctl linux.Sysctl),
      ("devices", NetValue.devices linux.Devices),
      ("seccomp", NetValue.seccomp linux.Seccomp),
      ("rootfsPropagation", NetValue.rootfsPropagation linux.RootfsPropagation)], ?_, ?_⟩
    · simp [getNetworkSpec, h]
    · simp [List.lookup]
  · rw [inspectContainer_NetworkSpec, inspectContainer_Spec]

/-- For a container whose task lookup fails, the loop of inspect.go still emits
its record, and that record keeps the zero values of `Status` and `Task`:
`Status.Status` is the empty string, `Status.Pid` is 0, and `Task` has Pid 0 and
Status "". -/
theorem inspect_no_task (decode : Decoder) (s : String) (c : Container)
    (cs : List Container) (err : String) (hmem : c ∈ cs) (h : c.Task = .error err) :
    inspectContainer decode s c ∈ containerLoop decode s cs ∧
    (inspectContainer decode s c).Status = { Status := "", Pid := 0 } ∧
    (inspectContainer decode s c).Task = { Pid := 0, Status := "" } := by
  refine ⟨mem_containerLoop decode s c cs hmem, ?_, ?_⟩
  · cases hI : c.Image <;> simp [inspectContainer, h, hI]
  · cases hI : c.Image <;> simp [inspectContainer, h, hI]

/-- Witness of `inspect_no_task`: container `c2` of the scenario. -/
theorem inspect_no_task_witness :
    inspectContainer exampleDecode "default" c2 ∈
        containerLoop exampleDecode "default" [c1, c2] ∧
      (inspectContainer exampleDecode "default" c2).Status = { Status := "", Pid := 0 } ∧
      (inspectContainer exampleDecode "default" c2).Task = { Pid := 0, Status := "" } :=
  inspect_no_task exampleDecode "default" c2 [c1, c2] "no running task found: not found"
    (by simp) rfl

/-- C1 (the code at the failing input): in the scenario of the specification the
run of inspect.go emits the records of `c1` and `c2`, and the status of the
stopped container `c2` is the empty string, not "stopped", while
`printContainerDetails` of containerd.go prints the stopped line for the same
container. -/
theorem inspect_no_task_not_stopped :
    (main exampleDecode (.ok scenarioClient)).records.map
        (fun r => (r.ContainerID, r.Status.Status, r.Status.Pid)) =
      [("c1", "RUNNING", 4321), ("c2", "", 0)] ∧
    (inspectContainer exampleDecode "default" c2).Status.Status ≠ "stopped" ∧
    Line.stopped ∈ (printContainerDetails exampleDecode c2).lines ∧
    Line.stopped ∉ (printContainerDetails exampleDecode c1).lines := by
  decide

/-- C6: for a container whose task lookup succeeds, the record's `Status` holds
the reported status and the PID of the task, and `Task` carries the same two
values. -/
theorem inspect_live_task (decode : Decoder) (s : String) (c : Container) (task : Task)
    (h : c.Task = .ok task) :
    (inspectContainer decode s c).Status.Status = task.Status ∧
    (inspectContainer decode s c).Status.Pid = (task.Pid : Int) ∧
    (inspectContainer decode s c).Task.Pid = (task.Pid : Int) ∧
    (inspectContainer decode s c).Task.Status = task.Status := by
  cases hI : c.Image <;> simp [inspectContainer, h, hI, intOfPid]

/-- Witness of `inspect_live_task`: PID 4321 with status "RUNNING". -/
theorem inspect_live_task_witness :
    (inspectContainer exampleDecode "default" c1).Status.Status = "RUNNING" ∧
      (inspectContainer exampleDecode "default" c1).Status.Pid = 4321 ∧
      (inspectContainer exampleDecode "default" c1).Task.Pid = 4321 ∧
      (inspectContainer exampleDecode "default" c1).Task.Status = "RUNNING" :=
  inspect_live_task exampleDecode "default" c1 { Pid := 4321, Status := "RUNNING" } rfl

/-- C7 (as amended): for a container whose spec blob cannot be decoded the loop
of inspect.go still emits a record; its ContainerID, Namespace, Runtime.Name and
CreatedAt are the handle's ID, the namespace and the values of the container
metadata, the same as under any other decoder `decode'` (so also one that
decodes the blob); its Spec is the target as the decoder left it, and
Annotations, CgroupPath and NetworkSpec are derived from that value.  When the
decoder left the target untouched, the Spec is the zero spec, Annotations is nil,
CgroupPath is "" and NetworkSpec is nil. -/
theorem inspect_undecodable (decode decode' : Decoder) (s : String) (c : Container)
    (cs : List Container) (err : String) (hmem : c ∈ cs)
    (hdec : (decode c.Info.Spec).2 = some err) :
    (decode c.Info.Spec).2 ≠ none ∧
    inspectContainer decode s c ∈ containerLoop decode s cs ∧
    (inspectContainer decode s c).ContainerID = c.ID ∧
    (inspectContainer decode s c).Namespace = s ∧
    (inspectContainer decode s c).Runtime.Name = c.Info.RuntimeName ∧
    (inspectContainer decode s c).CreatedAt = c.Info.CreatedAt.text ∧
    (inspectContainer decode s c).ContainerID = (inspectContainer decode' s c).ContainerID ∧
    (inspectContainer decode s c).Namespace = (inspectContainer decode' s c).Namespace ∧
    (inspectContainer decode s c).Runtime.Name = (inspectContainer decode' s c).Runtime.Name ∧
    (inspectContainer decode s c).CreatedAt = (inspectContainer decode' s c).CreatedAt ∧
    (inspectContainer decode s c).Spec = (decode c.Info.Spec).1 ∧
    (inspectContainer decode s c).Annotations = (decode c.Info.Spec).1.Annotations ∧
    (inspectContainer decode s c).CgroupPath = getCgroupPath (decode c.Info.Spec).1 ∧
    (inspectContainer decode s c).NetworkSpec = getNetworkSpec (decode c.Info.Spec).1 ∧
    ((decode c.Info.Spec).1 = Spec.zero →
      (inspectContainer decode s c).Spec = Spec.zero ∧
      (inspectContainer decode s c).Spec.Hostname = "" ∧
      (inspectContainer decode s c).Spec.Process = none ∧
      (inspectContainer decode s c).Spec.Mounts = [] ∧
      (inspectContainer decode s c).Spec.Annotations = none ∧
      (inspectContainer decode s c).Spec.Linux = none ∧
      (inspectContainer decode s c).Annotations = none ∧
      (inspectContainer decode s c).CgroupPath = "" ∧
      (inspectContainer decode s c).NetworkSpec = none) := by
  refine ⟨by simp [hdec], mem_containerLoop decode s c cs hmem, ?_⟩
  simp only [inspectContainer_ContainerID, inspectContainer_Namespace,
    inspectContainer_Runtime, inspectContainer_CreatedAt, inspectContainer_Spec,
    inspectContainer_Annotations, inspectContainer_CgroupPath,
    inspectContainer_NetworkSpec, unmarshalSpec, true_and]
  intro hz
  simp [hz, Spec.zero, getCgroupPath, getNetworkSpec]

/-- Witness of `inspect_undecodable`: a container with an empty spec blob, which
the decoder rejects with the target untouched, compared with a decoder that
accepts every blob. -/
theorem inspect_undecodable_witness :
    inspectContainer exampleDecode "default" undecodableContainer ∈
        containerLoop exampleDecode "default" [undecodableContainer] ∧
      (inspectContainer exampleDecode "default" undecodableContainer).ContainerID = "c5" ∧
      (inspectContainer exampleDecode "default" undecodableContainer).Namespace = "default" ∧
      (inspectContainer exampleDecode "default" undecodableContainer).Runtime.Name =
        "io.containerd.runc.v2" ∧
      (inspectContainer exampleDecode "default" undecodableContainer).CreatedAt =
        "2024-05-01 10:00:00 +0000 UTC" ∧
      (inspectContainer exampleDecode "default" undecodableContainer).Spec = Spec.zero ∧
      (inspectContainer exampleDecode "default" undecodableContainer).Annotations = none ∧
      (inspectContainer exampleDecode "default" undecodableContainer).CgroupPath = "" ∧
      (inspectContainer exampleDecode "default" undecodableContainer).NetworkSpec = none := by
  have h := inspect_undecodable exampleDecode (fun _ => (linuxSpec, none)) "default"
    undecodableContainer [undecodableContainer] "unexpected end of JSON input"
    (by simp) (by rfl)
  obtain ⟨_, h1, h2, h3, h4, h5, _, _, _, _, _, _, _, _, hz⟩ := h
  have hz := hz (by rfl)
  exact ⟨h1, h2, h3, h4, h5, hz.1, hz.2.2.2.2.2.2.1, hz.2.2.2.2.2.2.2.1, hz.2.2.2.2.2.2.2.2⟩

/-- C7 (counterexample): the blob `typeErrorBlob` cannot be decoded (a type error
on `hostname`), yet the record of its container has a Spec that is not the zero
spec, non-empty Annotations, the CgroupPath "/kubepods/x" and a NetworkSpec that
is present. -/
theorem type_error_blob_keeps_fields :
    (exampleDecode typeErrorContainer.Info.Spec).2 =
      some "json: cannot unmarshal number into Go struct field Spec.hostname of type string" ∧
    (inspectContainer exampleDecode "default" typeErrorContainer).Spec ≠ Spec.zero ∧
    (inspectContainer exampleDecode "default" typeErrorContainer).Annotations =
      some [("a", "b")] ∧
    (inspectContainer exampleDecode "default" typeErrorContainer).CgroupPath = "/kubepods/x" ∧
    (inspectContainer exampleDecode "default" typeErrorContainer).NetworkSpec ≠ none := by
  decide

/-- C8 (as amended): a container whose image cannot be resolved and a container
with the same handle ID, metadata and task whose image resolves with empty name,
empty digest and size 0 give the same record and hence the same document,
whatever the encodings of the external types; in that document the Image member
is the present object with Name "", Digest "" and Size 0. -/
theorem image_absent_same_as_empty (enc : Encoders) (decode : Decoder) (s : String)
    (a b : Container) (err : String)
    (hid : a.ID = b.ID) (hinfo : a.Info = b.Info) (htask : a.Task = b.Task)
    (ha : a.Image = .error err) (hb : b.Image = .ok { Name := "", Digest := "", Size := 0 }) :
    inspectContainer decode s a = inspectContainer decode s b ∧
    marshal enc (inspectContainer decode s a) = marshal enc (inspectContainer decode s b) ∧
    (marshal enc (inspectContainer decode s a)).field "Image" =
      some (JVal.obj [("Name", .str ""), ("Digest", .str ""), ("Size", .num 0)]) := by
  have hrec : inspectContainer decode s a = inspectContainer decode s b := by
    cases hT : b.Task <;> simp [inspectContainer, hid, hinfo, htask, ha, hb, hT]
  refine ⟨hrec, by rw [hrec], ?_⟩
  simp [marshal, JVal.field, List.lookup, marshalImageInfo,
    inspectContainer_Image_error decode s a err ha]

/-- Witness of `image_absent_same_as_empty`: containers `unresolvedImageContainer`
and `emptyImageContainer`, with encoders that render the external types as
null. -/
theorem image_absent_same_as_empty_witness :
    inspectContainer exampleDecode "default" unresolvedImageContainer =
        inspectContainer exampleDecode "default" emptyImageContainer ∧
      marshal ⟨fun _ => .null, fun _ => .null⟩
          (inspectContainer exampleDecode "default" unresolvedImageContainer) =
        marshal ⟨fun _ => .null, fun _ => .null⟩
          (inspectContainer exampleDecode "default" emptyImageContainer) ∧
      (marshal ⟨fun _ => .null, fun _ => .null⟩
          (inspectContainer exampleDecode "default" unresolvedImageContainer)).field "Image" =
        some (JVal.obj [("Name", .str ""), ("Digest", .str ""), ("Size", .num 0)]) :=
  image_absent_same_as_empty ⟨fun _ => .null, fun _ => .null⟩ exampleDecode "default"
    unresolvedImageContainer emptyImageContainer "image not found" rfl rfl rfl rfl rfl

/-- C8 (counterexample): the record of a container whose image cannot be
resolved equals the record of the same container with an image of empty name,
empty digest and size 0; the documents are equal as functions of the encodings
of the external types, and the Image of the unresolved one is encoded as a
present object, not as null. -/
theorem unresolved_image_not_absent :
    inspectContainer exampleDecode "default" unresolvedImageContainer =
        inspectContainer exampleDecode "default" emptyImageContainer ∧
    (fun enc => marshal enc (inspectContainer exampleDecode "default" unresolvedImageContainer)) =
      (fun enc => marshal enc (inspectContainer exampleDecode "default" emptyImageContainer)) ∧
    marshalImageInfo (inspectContainer exampleDecode "default" unresolvedImageContainer).Image =
      JVal.obj [("Name", .str ""), ("Digest", .str ""), ("Size", .num 0)] := by
  have hrec : inspectContainer exampleDecode "default" unresolvedImageContainer =
      inspectContainer exampleDecode "default" emptyImageContainer := by decide
  exact ⟨hrec, by rw [hrec], rfl⟩

/-- The namespace loop of inspect.go stops at the first namespace whose container
listing fails: it has printed the records of the namespaces before it, exits with
status 1 and its last log line is the fatal diagnostic. -/
theorem namespaceLoop_append_error (decode : Decoder) (client : Client)
    (pre : List String) (s : String) (post : List String) (err : String)
    (hpre : ∀ p ∈ pre, ∃ containers, client.Containers p = .ok containers)
    (hs : client.Containers s = .error err) :
    (namespaceLoop decode client (pre ++ s :: post)).records =
        listedRecords decode client pre ∧
      (namespaceLoop decode client (pre ++ s :: post)).exit = 1 ∧
      LogLine.fatalContainers err ∈ (namespaceLoop decode client (pre ++ s :: post)).logs := by
  induction pre with
  | nil => simp [namespaceLoop, hs, listedRecords]
  | cons p pre ih =>
    obtain ⟨containers, hp⟩ := hpre p (List.mem_cons_self p pre)
    have ih := ih (fun q hq => hpre q (List.mem_cons_of_mem p hq))
    simp only [List.cons_append, namespaceLoop, hp, List.append_eq]
    refine ⟨?_, ih.2.1, List.mem_cons_of_mem _ ih.2.2⟩
    rw [ih.1]
    simp [listedRecords, hp]

/-- C2 (as amended): when the container listing of a namespace fails and the
listings of the namespaces before it succeed, the run of inspect.go is aborted
there with exit status 1 and the fatal diagnostic: it emits exactly the records
of the namespaces before the failing one, none for the failing one and none for
the namespaces after it. -/
theorem main_aborts_on_list_error (decode : Decoder) (client : Client)
    (pre : List String) (s : String) (post : List String) (err : String)
    (hns : client.Namespaces.1 = pre ++ s :: post)
    (hpre : ∀ p ∈ pre, ∃ containers, client.Containers p = .ok containers)
    (hs : client.Containers s = .error err) :
    (main decode (.ok client)).records = listedRecords decode client pre ∧
    (main decode (.ok client)).exit = 1 ∧
    LogLine.fatalContainers err ∈ (main decode (.ok client)).logs := by
  simp only [main, hns]
  exact namespaceLoop_append_error decode client pre s post err hpre hs

/-- Witness of `main_aborts_on_list_error`: namespaces `ns-b`, `ns-a` where the
listing of `ns-a` fails after the record of `ns-b` was printed. -/
theorem main_aborts_on_list_error_witness :
    (main exampleDecode (.ok failingLastClient)).records =
        listedRecords exampleDecode failingLastClient ["ns-b"] ∧
      (main exampleDecode (.ok failingLastClient)).exit = 1 ∧
      LogLine.fatalContainers "rpc error: code = Unavailable" ∈
        (main exampleDecode (.ok failingLastClient)).logs :=
  main_aborts_on_list_error exampleDecode failingLastClient ["ns-b"] "ns-a" []
    "rpc error: code = Unavailable" rfl
    (by
      intro p hp
      have hp' : p = "ns-b" := by simpa using hp
      subst hp'
      exact ⟨[c1], rfl⟩)
    rfl

/-- C2 (counterexample): with the namespaces `ns-a`, `ns-b`, where the listing of
`ns-a` fails and `ns-b` holds one container, the run of inspect.go emits no
record at all and exits with status 1; the record of `ns-b` is not produced. -/
theorem list_error_drops_later_namespaces :
    (main exampleDecode (.ok failingListClient)).records = [] ∧
    (main exampleDecode (.ok failingListClient)).exit = 1 ∧
    listedRecords exampleDecode failingListClient ["ns-b"] =
      [inspectContainer exampleDecode "ns-b" c1] := by
  decide

/-- C3 (the code at the failing input): in a namespace that lists a container
whose `container.Info` fails, followed by `c1`, the run of inspect.go emits a
record for the failing container too, built from the value returned next to the
error, while `printContainerDetails` of containerd.go stops after reporting the
error. -/
theorem info_error_still_emits_record :
    (main exampleDecode (.ok noInfoClient)).records.map (fun r => r.ContainerID) =
      ["c3", "c1"] ∧
    (main exampleDecode (.ok noInfoClient)).records.head? =
      some
        { ContainerID := "c3", Namespace := "default"
          Runtime := { Name := "io.containerd.runc.v2" }
          Image := { Name := "", Digest := "", Size := 0 }
          Status := { Status := "", Pid := 0 }, Spec := linuxSpec
          Labels := some [("app", "web")], Annotations := linuxSpec.Annotations
          CreatedAt := "2024-05-01 10:00:00 +0000 UTC"
          Snapshotter := "overlayfs", SnapshotKey := "key"
          Task := { Pid := 0, Status := "" }
          NetworkSpec := getNetworkSpec linuxSpec, CgroupPath := "/kubepods/pod1/c1" } ∧
    printContainerDetails exampleDecode noInfoContainer =
      { lines := [Line.containerID "c3", Line.infoError "container not found"]
        panicked := false } := by
  decide

/-- C9 (the code at the failing input): when `NamespaceService().List` returns an
error with a nil list, both programs run to the end of `main`: no record, no
line, no diagnostic, exit status 0. -/
theorem namespace_list_error_exits_zero :
    main exampleDecode (.ok noNamespacesClient) = { records := [], logs := [], exit := 0 } ∧
    mainPrint exampleDecode (.ok noNamespacesClient) = { lines := [], logs := [], exit := 0 } := by
  decide

/-- The call `printContainerDetails` panics exactly when the metadata fetch
succeeds and the spec in hand has no process block. -/
theorem printContainerDetails_panicked_iff (decode : Decoder) (c : Container) :
    (printContainerDetails decode c).panicked = true ↔
      c.InfoErr = none ∧ (unmarshalSpec decode c.Info.Spec).Process = none := by
  unfold printContainerDetails
  cases hE : c.InfoErr with
  | some err => simp
  | none =>
    cases hP : (unmarshalSpec decode c.Info.Spec).Process <;> simp [hP]

/-- C10 (the code at the failing input): for a container whose metadata fetch
succeeds and whose spec blob is undecodable, and for one whose blob decodes to a
spec with no process block, `printContainerDetails` panics on `spec.Process.Cwd`
right after the hostname line; the environment, mount and annotation sections
are not reached, and the run of containerd.go ends with status 2. -/
theorem print_details_panics_without_process :
    (printContainerDetails exampleDecode undecodableContainer).panicked = true ∧
    (printContainerDetails exampleDecode noProcessContainer).panicked = true ∧
    (printContainerDetails exampleDecode undecodableContainer).lines =
      [Line.containerID "c5", Line.specError "unexpected end of JSON input",
       Line.createdAt "2024-05-01T10:00:00Z", Line.runtime "io.containerd.runc.v2" "",
       Line.labels (some [("app", "web")]), Line.stopped, Line.ociHeader,
       Line.hostname ""] ∧
    Line.envHeader ∉ (printContainerDetails exampleDecode noProcessContainer).lines ∧
    Line.mountHeader ∉ (printContainerDetails exampleDecode noProcessContainer).lines ∧
    Line.annotationHeader ∉ (printContainerDetails exampleDecode noProcessContainer).lines ∧
    (mainPrint exampleDecode
      (.ok { Namespaces := (["default"], none)
             Containers := fun _ => .ok [undecodableContainer, c1] })).exit = 2 := by
  decide

end Containers
